import Mathlib

/-!
Shallow embedding of the playback session controller of `slideshow.py`
(class `MediaSlideshowViewer`), covering the parts of the program that the
specification's claims are about:

* media-kind classification (`is_video_file`, lines 202-204);
* catalog ordering at startup (`__init__`, lines 102-107: `random.shuffle`
  or `sort`);
* the pipeline lifecycle (`cleanup_pipeline` lines 220-242,
  `create_pipeline` lines 244-361);
* the retry loop (`load_current_media` lines 452-480), the advance
  operation (`change_media` lines 482-495), the error handler (`on_error`
  lines 412-419), the end-of-stream handler (`on_eos` lines 421-426) and
  the destroy handler (`on_destroy` lines 497-510).

The GStreamer/GTK side effects are represented by an explicit event trace
(`Event`), and the fallible external calls inside `create_pipeline`
(pipeline construction, `set_state(PLAYING)`) by an environment oracle
`String -> LoadOutcome` mapping a media path to the way the load of that
path behaves.  Pipeline objects, buses and GLib timer sources are
identified by natural numbers drawn from a freshness counter.
-/

namespace Slideshow

/-- The nine video extensions of `self.video_extensions` (line 95). -/
def video_extensions : List String :=
  [".mp4", ".avi", ".mkv", ".mov", ".webm", ".flv", ".wmv", ".mpg", ".mpeg"]

/-- Python's `str.lower()` restricted to its ASCII behaviour, which is all
the extension comparison needs. -/
def str_lower (s : String) : String :=
  String.mk (s.data.map Char.toLower)

/-- Python's `str.endswith(suffixStr)`. -/
def str_endswith (s suffixStr : String) : Bool :=
  List.isSuffixOf suffixStr.data s.data

/-- `is_video_file` (lines 202-204):
`any(filepath.lower().endswith(ext) for ext in self.video_extensions)`. -/
def is_video_file (filepath : String) : Bool :=
  video_extensions.any (fun ext => str_endswith (str_lower filepath) ext)

/-- The two media kinds the program distinguishes (`"video" if ... else
"image"`, lines 117, 123, 249). -/
inductive MediaKind
  | image
  | video
deriving DecidableEq, Repr

/-- Kind classification as used on lines 117, 123 and 248-249. -/
def media_kind (filepath : String) : MediaKind :=
  if is_video_file filepath then MediaKind.video else MediaKind.image

/-- A pending GLib timeout source: its source id and the number of seconds
it was armed with (`GLib.timeout_add_seconds(self.image_interval, ...)`,
line 353). -/
structure Timer where
  id : Nat
  duration : Nat
deriving DecidableEq, Repr

/-- The mutable attributes of `MediaSlideshowViewer` that the claims are
about.  `pipeline` and `bus` hold the identifiers of the live GStreamer
objects (`self.pipeline`, `self.bus`), `timeout_id` the pending advance
timer (`self.timeout_id`), `destroyed` records that `self.destroy()` ran,
and `next_id` is the freshness counter for newly created objects. -/
structure SessionState where
  media_files : List String
  current_index : Nat
  image_interval : Nat
  pipeline : Option Nat
  bus : Option Nat
  is_video : Bool
  timeout_id : Option Timer
  destroyed : Bool
  next_id : Nat
deriving DecidableEq, Repr

/-- Observable side effects of the controller, in program order. -/
inductive Event
  /-- the retry loop reads `self.media_files[self.current_index]` and
  calls `create_pipeline` on it (lines 459-465) -/
  | attempt (idx : Nat) (path : String)
  /-- `GLib.source_remove(self.timeout_id)` -/
  | timerCancelled (tid : Nat)
  /-- `self.pipeline.set_state(Gst.State.NULL)` (line 231) -/
  | pipelineStopped (p : Nat)
  /-- `self.bus.remove_signal_watch()` (line 235) -/
  | busWatchRemoved (b : Nat)
  /-- the blocking `self.pipeline.get_state(Gst.CLOCK_TIME_NONE)`
  (line 239) -/
  | stateWaited (p : Nat)
  /-- `self.pipeline = None` (line 242) -/
  | pipelineDropped (p : Nat)
  /-- a new pipeline object was built (lines 276, 284, 326) -/
  | pipelineConstructed (p : Nat)
  /-- `self.bus.add_signal_watch()` and the `connect` calls
  (lines 332-339) -/
  | busWatchAdded (b : Nat)
  /-- `self.pipeline.set_state(Gst.State.PLAYING)` succeeded (line 342) -/
  | pipelineStarted (p : Nat)
  /-- `set_state(Gst.State.PLAYING)` returned `FAILURE` (line 343) -/
  | startFailed (p : Nat)
  /-- `GLib.timeout_add_seconds(duration, self.change_media)`
  (line 353) -/
  | timerArmed (tid : Nat) (duration : Nat)
  /-- `Gtk.main_quit()` side of `self.destroy()` -/
  | windowDestroyed
deriving DecidableEq, Repr

/-- How the external GStreamer calls inside one `create_pipeline(path)`
invocation behave for a given path. -/
inductive LoadOutcome
  /-- pipeline construction fails before `self.pipeline` is assigned:
  `Gst.ElementFactory.make` returned `None` (lines 284-287) or
  `Gst.parse_launch` raised (caught on lines 359-361) -/
  | parseFail
  /-- construction succeeds but `set_state(Gst.State.PLAYING)` returns
  `Gst.StateChangeReturn.FAILURE` (lines 342-345) -/
  | startFail
  /-- construction and start both succeed -/
  | ok
deriving DecidableEq, Repr

/-- The index advance `(self.current_index + 1) % len(self.media_files)`
used on lines 475 and 486. -/
def advance_index (n i : Nat) : Nat := (i + 1) % n

/-- Trace of `if self.timeout_id: GLib.source_remove(self.timeout_id)`
(lines 226-228). -/
def cancel_timer_evs : Option Timer → List Event
  | some t => [Event.timerCancelled t.id]
  | none => []

/-- Trace of `if self.bus: self.bus.remove_signal_watch()`
(lines 234-236). -/
def remove_bus_evs : Option Nat → List Event
  | some b => [Event.busWatchRemoved b]
  | none => []

/-- `cleanup_pipeline` (lines 220-242).  The whole body is guarded by
`if self.pipeline:`; inside it the order is: cancel the pending timeout,
stop the pipeline, remove the bus signal watch, wait for the state change
to complete, drop the pipeline reference. -/
def cleanup_pipeline (s : SessionState) : SessionState × List Event :=
  match s.pipeline with
  | none => (s, [])
  | some p =>
    ({ s with timeout_id := none, bus := none, pipeline := none },
     cancel_timer_evs s.timeout_id
       ++ Event.pipelineStopped p
          :: remove_bus_evs s.bus
       ++ [Event.stateWaited p, Event.pipelineDropped p])

/-- `create_pipeline(media_path)` (lines 244-361).  It first calls
`cleanup_pipeline`, then sets `self.is_video`, then builds a pipeline
(the concrete GStreamer description strings differ by kind and container
but are observationally identical here), wires the bus watch, and calls
`set_state(PLAYING)`.  On success for an image it arms the advance timer
with `self.image_interval`; failures return `False`. -/
def create_pipeline (env : String → LoadOutcome) (media_path : String)
    (s : SessionState) : Bool × SessionState × List Event :=
  let cleaned := cleanup_pipeline s
  let s1 := { cleaned.1 with is_video := is_video_file media_path }
  match env media_path with
  | LoadOutcome.parseFail => (false, s1, cleaned.2)
  | LoadOutcome.startFail =>
    let p := s1.next_id
    (false,
     { s1 with pipeline := some p, bus := some p, next_id := p + 1 },
     cleaned.2
       ++ [Event.pipelineConstructed p, Event.busWatchAdded p,
           Event.startFailed p])
  | LoadOutcome.ok =>
    let p := s1.next_id
    let s2 := { s1 with pipeline := some p, bus := some p, next_id := p + 1 }
    if s2.is_video then
      (true, s2,
       cleaned.2
         ++ [Event.pipelineConstructed p, Event.busWatchAdded p,
             Event.pipelineStarted p])
    else
      let t : Timer := { id := s2.next_id, duration := s2.image_interval }
      (true,
       { s2 with timeout_id := some t, next_id := s2.next_id + 1 },
       cleaned.2
         ++ [Event.pipelineConstructed p, Event.busWatchAdded p,
             Event.pipelineStarted p,
             Event.timerArmed t.id s2.image_interval])

/-- `on_destroy` (lines 497-510): removes the pending timeout source
(without clearing the attribute), calls `cleanup_pipeline`, and quits the
main loop.  The cursor-hide timeout is outside the modelled state. -/
def on_destroy (s : SessionState) : SessionState × List Event :=
  let cleaned := cleanup_pipeline s
  ({ cleaned.1 with destroyed := true },
   cancel_timer_evs s.timeout_id ++ cleaned.2 ++ [Event.windowDestroyed])

/-- The body of the `while attempts < len(self.media_files)` loop of
`load_current_media` (lines 457-480), with `fuel` standing for
`len(self.media_files) - attempts`.  Each iteration reads the file at
`current_index` and calls `create_pipeline`; on failure it advances
`current_index` modulo the catalog length and retries; when the budget is
exhausted (`attempts >= len(self.media_files)`) it calls
`self.destroy()`. -/
def load_loop (env : String → LoadOutcome) : Nat → SessionState → SessionState × List Event
  | 0, s => on_destroy s
  | fuel + 1, s =>
    match create_pipeline env (s.media_files.getD s.current_index "") s with
    | (true, s1, tr) =>
      (s1, Event.attempt s.current_index (s.media_files.getD s.current_index "") :: tr)
    | (false, s1, tr) =>
      ((load_loop env fuel
          { s1 with current_index := advance_index s1.media_files.length s1.current_index }).1,
       Event.attempt s.current_index (s.media_files.getD s.current_index "") ::
         tr ++ (load_loop env fuel
           { s1 with current_index := advance_index s1.media_files.length s1.current_index }).2)

/-- `load_current_media` (lines 452-480): the retry loop starting with
`attempts = 0`. -/
def load_current_media (env : String → LoadOutcome) (s : SessionState) :
    SessionState × List Event :=
  load_loop env s.media_files.length s

/-- `change_media` (lines 482-495): advance `current_index` modulo the
catalog length, then load. -/
def change_media (env : String → LoadOutcome) (s : SessionState) :
    SessionState × List Event :=
  load_current_media env
    { s with current_index := advance_index s.media_files.length s.current_index }

/-- `on_error` (lines 412-419): on any playback error, skip to the next
media via `change_media`. -/
def on_error (env : String → LoadOutcome) (s : SessionState) :
    SessionState × List Event :=
  change_media env s

/-- `on_eos` (lines 421-426): at end of stream, advance only when the
current item is a video. -/
def on_eos (env : String → LoadOutcome) (s : SessionState) :
    SessionState × List Event :=
  if s.is_video then change_media env s else (s, [])

/-- Swap the elements at positions `i` and `j` of a list
(`x[i], x[j] = x[j], x[i]`); out-of-range positions leave the list
unchanged. -/
def list_swap {α : Type} (l : List α) (i j : Nat) : List α :=
  match l[i]?, l[j]? with
  | some a, some b => (l.set i b).set j a
  | some _, none => l
  | none, _ => l

/-- The descending loop of CPython's `random.shuffle`: for `i` from
`len(x) - 1` down to `1`, draw `j` uniformly from `[0, i]` and swap
`x[i]` with `x[j]`.  `rand i` supplies the raw random draw used at
position `i`. -/
def shuffle_steps {α : Type} (rand : Nat → Nat) : Nat → List α → List α
  | 0, l => l
  | i + 1, l => shuffle_steps rand i (list_swap l (i + 1) (rand (i + 1) % (i + 2)))

/-- `random.shuffle(self.media_files)` (line 104), modelled as the
Fisher-Yates shuffle CPython implements, driven by the random draws
`rand`. -/
def fisher_yates {α : Type} (rand : Nat → Nat) (l : List α) : List α :=
  shuffle_steps rand (l.length - 1) l

/-- `self.media_files.sort()` (line 107): Python's ascending sort on
strings. -/
def sort_files (files : List String) : List String :=
  files.mergeSort (fun a b => decide (a ≤ b))

/-- The ordering step of `__init__` (lines 102-107): shuffle when the
`shuffle` flag is set, otherwise sort. -/
def order_media (shuffle : Bool) (rand : Nat → Nat) (files : List String) :
    List String :=
  if shuffle then fisher_yates rand files else sort_files files

/-- The state `__init__` (lines 59-107) leaves behind: all object
references `None`, `current_index = 0`; if no media files were found the
window is destroyed before any ordering happens, otherwise the file list
is ordered. -/
def init_state (found : List String) (interval : Nat) (shuffle : Bool)
    (rand : Nat → Nat) : SessionState :=
  if found.isEmpty then
    { media_files := [], current_index := 0, image_interval := interval,
      pipeline := none, bus := none, is_video := false, timeout_id := none,
      destroyed := true, next_id := 0 }
  else
    { media_files := order_media shuffle rand found, current_index := 0,
      image_interval := interval, pipeline := none, bus := none,
      is_video := false, timeout_id := none, destroyed := false,
      next_id := 0 }

/-- Number of load attempts recorded in a trace (one per
`create_pipeline` call issued by the retry loop). -/
def count_attempts (tr : List Event) : Nat :=
  tr.countP fun e => match e with
    | Event.attempt _ _ => true
    | _ => false

/-- The catalog indices attempted by the retry loop, in order. -/
def attempt_indices (tr : List Event) : List Nat :=
  tr.filterMap fun e => match e with
    | Event.attempt i _ => some i
    | _ => none

/-- Number of advance timers armed in a trace. -/
def count_timers_armed (tr : List Event) : Nat :=
  tr.countP fun e => match e with
    | Event.timerArmed _ _ => true
    | _ => false

/-- The durations of the advance timers armed in a trace, in order. -/
def armed_durations (tr : List Event) : List Nat :=
  tr.filterMap fun e => match e with
    | Event.timerArmed _ d => some d
    | _ => none

/-- Walks a trace with the pending-timer register starting at `t` and
reports whether some timer is armed while another is still pending. -/
def armed_while_pending : Option Nat → List Event → Bool
  | t, Event.timerArmed tid _ :: rest =>
    t.isSome || armed_while_pending (some tid) rest
  | _, Event.timerCancelled _ :: rest => armed_while_pending none rest
  | t, _ :: rest => armed_while_pending t rest
  | _, [] => false

/-- Events that construct or start a new pipeline (or belong to its
successful start-up). -/
def is_build_event : Event → Bool
  | Event.pipelineConstructed _ => true
  | Event.busWatchAdded _ => true
  | Event.pipelineStarted _ => true
  | Event.startFailed _ => true
  | Event.timerArmed _ _ => true
  | _ => false

/-- The implicit invariant relating the advance timer to the pipeline:
whenever `self.timeout_id` is set, `self.pipeline` is set. -/
def timer_inv (s : SessionState) : Prop :=
  s.timeout_id.isSome = true → s.pipeline.isSome = true

/-- Environment in which every load attempt succeeds. -/
def env_all_ok : String → LoadOutcome := fun _ => LoadOutcome.ok

/-- Environment in which `set_state(PLAYING)` fails on every attempt. -/
def env_all_start_fail : String → LoadOutcome := fun _ => LoadOutcome.startFail

/-- Environment in which only `bad.png` fails to load. -/
def env_bad_png : String → LoadOutcome := fun p =>
  if p = "bad.png" then LoadOutcome.parseFail else LoadOutcome.ok

/-- A fresh session over a two-item catalog (as left by `__init__`). -/
def fresh_state : SessionState :=
  { media_files := ["a.jpg", "b.mp4"], current_index := 0,
    image_interval := 3, pipeline := none, bus := none, is_video := false,
    timeout_id := none, destroyed := false, next_id := 0 }

/-- A session showing a video: pipeline 3 is live with its bus watch
attached and no advance timer is pending. -/
def video_state : SessionState :=
  { media_files := ["b.mp4"], current_index := 0, image_interval := 3,
    pipeline := some 3, bus := some 3, is_video := true, timeout_id := none,
    destroyed := false, next_id := 4 }

/-- A session in mid-show: pipeline 7 is live, its bus watch is attached,
and the advance timer 9 is pending. -/
def showing_state : SessionState :=
  { media_files := ["a.jpg", "b.mp4", "c.png"], current_index := 0,
    image_interval := 3, pipeline := some 7, bus := some 7,
    is_video := false, timeout_id := some { id := 9, duration := 3 },
    destroyed := false, next_id := 10 }

theorem advance_iterate (n : Nat) :
    ∀ (k i : Nat), i < n →
      Nat.iterate (advance_index n) k i = (i + k) % n := by
  intro k
  induction k with
  | zero =>
    intro i hi
    simp [Nat.mod_eq_of_lt hi]
  | succ k ih =>
    intro i hi
    have hn : 0 < n := Nat.lt_of_le_of_lt (Nat.zero_le i) hi
    rw [Function.iterate_succ_apply]
    have h2 : (i + 1) % n < n := Nat.mod_lt _ hn
    rw [show advance_index n i = (i + 1) % n from rfl, ih _ h2,
      Nat.mod_add_mod]
    congr 1
    omega

/-- Claim C7: the current index advances modulo the catalog length and
stays in range: from any in-range start, advancing `n` times returns to
the start; from the last item the next advance goes to item `0`; and the
advance of any index is in range. -/
theorem change_media_index_wraps (n i j : Nat) (hn : 0 < n) (hi : i < n) :
    Nat.iterate (advance_index n) n i = i ∧
    advance_index n (n - 1) = 0 ∧
    advance_index n j < n := by
  refine ⟨?_, ?_, Nat.mod_lt _ hn⟩
  · rw [advance_iterate n n i hi, Nat.add_mod_right, Nat.mod_eq_of_lt hi]
  · show (n - 1 + 1) % n = 0
    rw [show n - 1 + 1 = n by omega, Nat.mod_self]

/-- Witness for C7 at the concrete catalog length 4, start index 2 and
probe index 9. -/
theorem change_media_index_wraps_witness :
    (0 < 4 ∧ 2 < 4) ∧
    (Nat.iterate (advance_index 4) 4 2 = 2 ∧
     advance_index 4 (4 - 1) = 0 ∧
     advance_index 4 9 < 4) :=
  ⟨⟨by decide, by decide⟩,
   change_media_index_wraps 4 2 9 (by decide) (by decide)⟩

/-- Claim C9: media-kind classification is a pure function of the
lowercased suffix: `is_video_file p` is true exactly when the lowercased
`p` ends with one of the nine video extensions, and every path is
classified as either video or image, with image exactly on the
non-video paths. -/
theorem is_video_file_classification (p : String) :
    (is_video_file p = true ↔
      (str_endswith (str_lower p) ".mp4" = true ∨
       str_endswith (str_lower p) ".avi" = true ∨
       str_endswith (str_lower p) ".mkv" = true ∨
       str_endswith (str_lower p) ".mov" = true ∨
       str_endswith (str_lower p) ".webm" = true ∨
       str_endswith (str_lower p) ".flv" = true ∨
       str_endswith (str_lower p) ".wmv" = true ∨
       str_endswith (str_lower p) ".mpg" = true ∨
       str_endswith (str_lower p) ".mpeg" = true)) ∧
    (media_kind p = MediaKind.video ∨ media_kind p = MediaKind.image) ∧
    (media_kind p = MediaKind.image ↔ is_video_file p = false) := by
  refine ⟨?_, ?_, ?_⟩
  · simp [is_video_file, video_extensions]
  · by_cases h : is_video_file p <;> simp [media_kind, h]
  · by_cases h : is_video_file p <;> simp [media_kind, h]

theorem cons_get_set_perm {α : Type} (a : α) :
    ∀ (t : List α) (m : Nat) (hm : m < t.length),
      List.Perm (t.get ⟨m, hm⟩ :: t.set m a) (a :: t) := by
  intro t
  induction t with
  | nil =>
    intro m hm
    exact absurd hm (by simp)
  | cons b t' ih =>
    intro m hm
    cases m with
    | zero => exact List.Perm.swap a b t'
    | succ k =>
      have hk : k < t'.length := Nat.lt_of_succ_lt_succ (by simpa using hm)
      exact (List.Perm.swap b (t'.get ⟨k, hk⟩) (t'.set k a)).trans
        ((List.Perm.cons b (ih k hk)).trans (List.Perm.swap a b t'))

theorem set_set_perm {α : Type} :
    ∀ (l : List α) (i j : Nat) (hi : i < l.length) (hj : j < l.length),
      List.Perm ((l.set i (l.get ⟨j, hj⟩)).set j (l.get ⟨i, hi⟩)) l := by
  intro l
  induction l with
  | nil =>
    intro i j hi _
    exact absurd hi (by simp)
  | cons x t ih =>
    intro i j hi hj
    cases i with
    | zero =>
      cases j with
      | zero => exact List.Perm.refl (x :: t)
      | succ m =>
        have hm : m < t.length := Nat.lt_of_succ_lt_succ (by simpa using hj)
        exact cons_get_set_perm x t m hm
    | succ k =>
      have hk : k < t.length := Nat.lt_of_succ_lt_succ (by simpa using hi)
      cases j with
      | zero => exact cons_get_set_perm x t k hk
      | succ m =>
        have hm : m < t.length := Nat.lt_of_succ_lt_succ (by simpa using hj)
        exact List.Perm.cons x (ih k m hk hm)

theorem list_swap_perm {α : Type} (l : List α) (i j : Nat) :
    List.Perm (list_swap l i j) l := by
  rcases hi : l[i]? with _ | a
  · simp [list_swap, hi]
  · rcases hj : l[j]? with _ | b
    · simp [list_swap, hi, hj]
    · obtain ⟨hi', hia⟩ := List.getElem?_eq_some_iff.mp hi
      obtain ⟨hj', hjb⟩ := List.getElem?_eq_some_iff.mp hj
      simp only [list_swap, hi, hj]
      rw [← hia, ← hjb]
      exact set_set_perm l i j hi' hj'

theorem shuffle_steps_perm {α : Type} (rand : Nat → Nat) :
    ∀ (k : Nat) (l : List α), List.Perm (shuffle_steps rand k l) l := by
  intro k
  induction k with
  | zero =>
    intro l
    exact List.Perm.refl l
  | succ i ih =>
    intro l
    exact (ih _).trans (list_swap_perm l (i + 1) (rand (i + 1) % (i + 2)))

theorem fisher_yates_perm {α : Type} (rand : Nat → Nat) (l : List α) :
    List.Perm (fisher_yates rand l) l :=
  shuffle_steps_perm rand (l.length - 1) l

theorem sort_files_sorted (files : List String) :
    (sort_files files).Pairwise (fun a b => a ≤ b) := by
  have h := @List.sorted_mergeSort String (fun a b : String => decide (a ≤ b))
    (fun a b c hab hbc =>
      decide_eq_true (le_trans (of_decide_eq_true hab) (of_decide_eq_true hbc)))
    (fun a b => by rcases le_total a b with h | h <;> simp [h])
    files
  exact h.imp (fun hab => of_decide_eq_true hab)

/-- Claim C8: the startup ordering step applies exactly one of the two
transformations - with shuffle enabled the Fisher-Yates permutation,
otherwise the sort - and in either case the result is a permutation of
the input list; the sorted branch is moreover sorted by path. -/
theorem order_media_permutation (sh : Bool) (rand : Nat → Nat)
    (files : List String) :
    List.Perm (order_media sh rand files) files ∧
    order_media true rand files = fisher_yates rand files ∧
    order_media false rand files = sort_files files ∧
    (order_media false rand files).Pairwise (fun a b => a ≤ b) := by
  refine ⟨?_, rfl, rfl, by simpa [order_media] using sort_files_sorted files⟩
  cases sh with
  | true => simpa [order_media] using fisher_yates_perm rand files
  | false => simpa [order_media, sort_files] using List.mergeSort_perm files _

instance (s : SessionState) : Decidable (timer_inv s) :=
  inferInstanceAs
    (Decidable (s.timeout_id.isSome = true → s.pipeline.isSome = true))

theorem load_loop_succ_of_ok (env : String → LoadOutcome) (fuel : Nat)
    (s s1 : SessionState) (tr : List Event)
    (h : create_pipeline env (s.media_files.getD s.current_index "") s = (true, s1, tr)) :
    load_loop env (fuel + 1) s =
      (s1, Event.attempt s.current_index (s.media_files.getD s.current_index "") :: tr) := by
  simp only [load_loop]
  rw [h]

theorem load_loop_succ_of_fail (env : String → LoadOutcome) (fuel : Nat)
    (s s1 : SessionState) (tr : List Event)
    (h : create_pipeline env (s.media_files.getD s.current_index "") s = (false, s1, tr)) :
    load_loop env (fuel + 1) s =
      ((load_loop env fuel
          { s1 with current_index := advance_index s1.media_files.length s1.current_index }).1,
       Event.attempt s.current_index (s.media_files.getD s.current_index "") ::
         tr ++ (load_loop env fuel
           { s1 with current_index := advance_index s1.media_files.length s1.current_index }).2) := by
  simp only [load_loop]
  rw [h]

theorem cleanup_pipeline_pipeline_none (s : SessionState) :
    (cleanup_pipeline s).1.pipeline = none := by
  rcases hp : s.pipeline with _ | p <;> simp [cleanup_pipeline, hp]

theorem timer_inv_cleanup (s : SessionState) (h : timer_inv s) :
    timer_inv (cleanup_pipeline s).1 := by
  rcases hp : s.pipeline with _ | p
  · simpa [cleanup_pipeline, hp] using h
  · simp [cleanup_pipeline, hp, timer_inv]

theorem timer_inv_create (env : String → LoadOutcome) (path : String)
    (s : SessionState) (h : timer_inv s) :
    timer_inv (create_pipeline env path s).2.1 := by
  have hclean : timer_inv (cleanup_pipeline s).1 := timer_inv_cleanup s h
  rcases henv : env path
  case parseFail =>
    intro ht
    exact absurd (hclean (by simpa [create_pipeline, henv] using ht))
      (by simp [create_pipeline, henv, cleanup_pipeline_pipeline_none s])
  case startFail => simp [timer_inv, create_pipeline, henv]
  case ok =>
    by_cases hv : is_video_file path <;>
      simp [timer_inv, create_pipeline, henv, hv]

theorem timer_inv_on_destroy (s : SessionState) (h : timer_inv s) :
    timer_inv (on_destroy s).1 := by
  have hclean : timer_inv (cleanup_pipeline s).1 := timer_inv_cleanup s h
  intro ht
  exact hclean (by simpa [on_destroy] using ht)

theorem timer_inv_load_loop (env : String → LoadOutcome) :
    ∀ (fuel : Nat) (s : SessionState), timer_inv s →
      timer_inv (load_loop env fuel s).1 := by
  intro fuel
  induction fuel with
  | zero =>
    intro s h
    exact timer_inv_on_destroy s h
  | succ fuel ih =>
    intro s h
    have hc := timer_inv_create env (s.media_files.getD s.current_index "") s h
    rcases hr : create_pipeline env (s.media_files.getD s.current_index "") s
      with ⟨b, s1, tr⟩
    rw [hr] at hc
    cases b
    · rw [load_loop_succ_of_fail env fuel s s1 tr hr]
      exact ih _ (fun ht => hc ht)
    · rw [load_loop_succ_of_ok env fuel s s1 tr hr]
      exact hc

/-- Claim C10: the implicit invariant that a pending advance timer implies
a live pipeline holds initially and is preserved by every modelled
operation of the controller. -/
theorem timer_implies_pipeline_invariant (env : String → LoadOutcome)
    (path : String) (s : SessionState) (found : List String) (interval : Nat)
    (sh : Bool) (rand : Nat → Nat) (h : timer_inv s) :
    timer_inv (init_state found interval sh rand) ∧
    timer_inv (cleanup_pipeline s).1 ∧
    timer_inv (create_pipeline env path s).2.1 ∧
    timer_inv (load_current_media env s).1 ∧
    timer_inv (change_media env s).1 ∧
    timer_inv (on_error env s).1 ∧
    timer_inv (on_eos env s).1 ∧
    timer_inv (on_destroy s).1 := by
  have hchange : timer_inv (change_media env s).1 := by
    apply timer_inv_load_loop
    intro ht
    exact h ht
  refine ⟨?_, timer_inv_cleanup s h, timer_inv_create env path s h,
    timer_inv_load_loop env _ s h, hchange, hchange, ?_,
    timer_inv_on_destroy s h⟩
  · by_cases he : found.isEmpty <;> simp [init_state, he, timer_inv]
  · by_cases hv : s.is_video
    · simpa [on_eos, hv] using hchange
    · simpa [on_eos, hv] using h

/-- Witness for C10: the invariant holds of the mid-show sample state and
is preserved there. -/
theorem timer_implies_pipeline_invariant_witness :
    timer_inv showing_state ∧
    (timer_inv (init_state ["c.png"] 5 false (fun _ => 0)) ∧
     timer_inv (cleanup_pipeline showing_state).1 ∧
     timer_inv (create_pipeline env_all_ok "a.jpg" showing_state).2.1 ∧
     timer_inv (load_current_media env_all_ok showing_state).1 ∧
     timer_inv (change_media env_all_ok showing_state).1 ∧
     timer_inv (on_error env_all_ok showing_state).1 ∧
     timer_inv (on_eos env_all_ok showing_state).1 ∧
     timer_inv (on_destroy showing_state).1) :=
  ⟨by decide,
   timer_implies_pipeline_invariant env_all_ok "a.jpg" showing_state
     ["c.png"] 5 false (fun _ => 0) (by decide)⟩

theorem cleanup_pipeline_of_some (s : SessionState) (p : Nat)
    (h : s.pipeline = some p) :
    cleanup_pipeline s =
      ({ s with timeout_id := none, bus := none, pipeline := none },
       cancel_timer_evs s.timeout_id
         ++ Event.pipelineStopped p
            :: remove_bus_evs s.bus
         ++ [Event.stateWaited p, Event.pipelineDropped p]) := by
  simp [cleanup_pipeline, h]

theorem cleanup_trace_no_build (s : SessionState) :
    ∀ e ∈ (cleanup_pipeline s).2, is_build_event e = false := by
  rcases hp : s.pipeline with _ | p
  · simp [cleanup_pipeline, hp]
  · rcases ht : s.timeout_id with _ | t <;> rcases hb : s.bus with _ | b <;>
      simp [cleanup_pipeline, hp, ht, hb, cancel_timer_evs, remove_bus_evs,
        is_build_event]

theorem create_trace_split (env : String → LoadOutcome) (path : String)
    (s : SessionState) :
    ∃ post, (create_pipeline env path s).2.2 = (cleanup_pipeline s).2 ++ post := by
  rcases henv : env path
  case parseFail => exact ⟨[], by simp [create_pipeline, henv]⟩
  case startFail =>
    refine ⟨[Event.pipelineConstructed (cleanup_pipeline s).1.next_id,
             Event.busWatchAdded (cleanup_pipeline s).1.next_id,
             Event.startFailed (cleanup_pipeline s).1.next_id], ?_⟩
    simp [create_pipeline, henv]
  case ok =>
    by_cases hv : is_video_file path
    · refine ⟨[Event.pipelineConstructed (cleanup_pipeline s).1.next_id,
               Event.busWatchAdded (cleanup_pipeline s).1.next_id,
               Event.pipelineStarted (cleanup_pipeline s).1.next_id], ?_⟩
      simp [create_pipeline, henv, hv]
    · refine ⟨[Event.pipelineConstructed (cleanup_pipeline s).1.next_id,
               Event.busWatchAdded (cleanup_pipeline s).1.next_id,
               Event.pipelineStarted (cleanup_pipeline s).1.next_id,
               Event.timerArmed ((cleanup_pipeline s).1.next_id + 1)
                 (cleanup_pipeline s).1.image_interval], ?_⟩
      simp [create_pipeline, henv, hv]

/-- Claim C1: every `create_pipeline` invocation on a state with a live
pipeline fully tears that pipeline down first - the stop, the bus-watch
removal and the reference drop all appear in a prefix of the call's trace
that contains no construction or start event of the new pipeline. -/
theorem create_pipeline_teardown_before_build (env : String → LoadOutcome)
    (path : String) (s : SessionState) (p : Nat) (h : s.pipeline = some p) :
    ∃ pre post,
      (create_pipeline env path s).2.2 = pre ++ post ∧
      Event.pipelineStopped p ∈ pre ∧
      Event.pipelineDropped p ∈ pre ∧
      (∀ b, s.bus = some b → Event.busWatchRemoved b ∈ pre) ∧
      ∀ e ∈ pre, is_build_event e = false := by
  obtain ⟨post, hpost⟩ := create_trace_split env path s
  refine ⟨(cleanup_pipeline s).2, post, hpost, ?_, ?_, ?_,
    cleanup_trace_no_build s⟩
  · simp [cleanup_pipeline, h]
  · simp [cleanup_pipeline, h]
  · intro b hb
    simp [cleanup_pipeline, h, remove_bus_evs, hb]

/-- Witness for C1 at the mid-show sample state whose pipeline is 7. -/
theorem create_pipeline_teardown_before_build_witness :
    showing_state.pipeline = some 7 ∧
    (∃ pre post,
      (create_pipeline env_all_ok "a.jpg" showing_state).2.2 = pre ++ post ∧
      Event.pipelineStopped 7 ∈ pre ∧
      Event.pipelineDropped 7 ∈ pre ∧
      (∀ b, showing_state.bus = some b → Event.busWatchRemoved b ∈ pre) ∧
      ∀ e ∈ pre, is_build_event e = false) :=
  ⟨rfl,
   create_pipeline_teardown_before_build env_all_ok "a.jpg" showing_state 7 rfl⟩

/-- Counterexample to C6 as stated: on a state with live pipeline 3 and an
attached bus watch, the first step of `cleanup_pipeline` is stopping the
pipeline (`set_state(Gst.State.NULL)`, line 231); the bus watch removal
(line 235) only comes second, so unsubscribing is not the very first step
of teardown and does not precede the stop. -/
theorem cleanup_first_event_is_stop :
    (cleanup_pipeline video_state).2 =
      [Event.pipelineStopped 3, Event.busWatchRemoved 3,
       Event.stateWaited 3, Event.pipelineDropped 3] ∧
    (cleanup_pipeline video_state).2.head? ≠ some (Event.busWatchRemoved 3) := by
  exact ⟨by decide, by decide⟩

/-- Claim C6 (amended): during teardown the bus watch removal is performed
after the pipeline is stopped (and after the timer cancellation) but
before the blocking state wait and before the pipeline reference is
dropped. -/
theorem buswatch_removed_after_stop_before_drop (s : SessionState)
    (p b : Nat) (hp : s.pipeline = some p) (hb : s.bus = some b) :
    ∃ pre post,
      (cleanup_pipeline s).2 = pre ++ Event.busWatchRemoved b :: post ∧
      Event.pipelineStopped p ∈ pre ∧
      Event.busWatchRemoved b ∉ pre ∧
      post = [Event.stateWaited p, Event.pipelineDropped p] := by
  refine ⟨cancel_timer_evs s.timeout_id ++ [Event.pipelineStopped p],
          [Event.stateWaited p, Event.pipelineDropped p], ?_, by simp, ?_, rfl⟩
  · simp [cleanup_pipeline, hp, hb, remove_bus_evs]
  · rcases ht : s.timeout_id with _ | t <;> simp [cancel_timer_evs, ht]

/-- Witness for the amended C6 at the concrete video-showing state whose
pipeline and bus are 3. -/
theorem buswatch_removed_after_stop_before_drop_witness :
    video_state.pipeline = some 3 ∧ video_state.bus = some 3 ∧
    (∃ pre post,
      (cleanup_pipeline video_state).2 = pre ++ Event.busWatchRemoved 3 :: post ∧
      Event.pipelineStopped 3 ∈ pre ∧
      Event.busWatchRemoved 3 ∉ pre ∧
      post = [Event.stateWaited 3, Event.pipelineDropped 3]) :=
  ⟨rfl, rfl, buswatch_removed_after_stop_before_drop video_state 3 3 rfl rfl⟩

theorem cleanup_trace_no_timer (s : SessionState) :
    count_timers_armed (cleanup_pipeline s).2 = 0 := by
  rcases hp : s.pipeline with _ | p
  · simp [cleanup_pipeline, hp, count_timers_armed]
  · rcases ht : s.timeout_id with _ | t <;> rcases hb : s.bus with _ | b <;>
      simp [cleanup_pipeline, hp, ht, hb, cancel_timer_evs, remove_bus_evs,
        count_timers_armed]

/-- Counterexample to C3 as stated: on a fresh session, a call of
`create_pipeline` on `b.mp4` in which `set_state(PLAYING)` fails (lines
342-345) returns `False` yet leaves the just-constructed pipeline 0 and
its bus subscription referenced by `self.pipeline` and `self.bus` - they
are not released before the call returns. -/
theorem create_pipeline_start_failure_keeps_reference :
    (create_pipeline env_all_start_fail "b.mp4" fresh_state).1 = false ∧
    (create_pipeline env_all_start_fail "b.mp4" fresh_state).2.1.pipeline = some 0 ∧
    (create_pipeline env_all_start_fail "b.mp4" fresh_state).2.1.bus = some 0 :=
  ⟨rfl, rfl, rfl⟩

/-- Claim C3 (amended): when the load of a path fails (construction
raises, or the transition to playing fails), `create_pipeline` returns
`False` and arms no timer; the pipeline and bus created during a failed
start, if any remain referenced, are released by the next
`cleanup_pipeline` (which runs before any new pipeline is constructed,
and on destroy), stopping the leftover pipeline and clearing both
references. -/
theorem create_pipeline_failure_reported_cleaned_next
    (env : String → LoadOutcome) (path : String) (s : SessionState)
    (h : env path ≠ LoadOutcome.ok) :
    (create_pipeline env path s).1 = false ∧
    count_timers_armed (create_pipeline env path s).2.2 = 0 ∧
    ∀ q, (create_pipeline env path s).2.1.pipeline = some q →
      (cleanup_pipeline (create_pipeline env path s).2.1).1.pipeline = none ∧
      (cleanup_pipeline (create_pipeline env path s).2.1).1.bus = none ∧
      Event.pipelineStopped q ∈ (cleanup_pipeline (create_pipeline env path s).2.1).2 := by
  have hcl := cleanup_trace_no_timer s
  refine ⟨?_, ?_, ?_⟩
  · rcases henv : env path
    · simp [create_pipeline, henv]
    · simp [create_pipeline, henv]
    · exact absurd henv h
  · rcases henv : env path
    · simpa [create_pipeline, henv] using hcl
    · simp only [count_timers_armed] at hcl
      simp [create_pipeline, henv, count_timers_armed, List.countP_append, hcl]
    · exact absurd henv h
  · intro q hq
    exact ⟨cleanup_pipeline_pipeline_none _, by simp [cleanup_pipeline, hq],
      by simp [cleanup_pipeline, hq]⟩

/-- Witness for the amended C3: the start of `b.mp4` fails on the fresh
session. -/
theorem create_pipeline_failure_reported_cleaned_next_witness :
    env_all_start_fail "b.mp4" ≠ LoadOutcome.ok ∧
    ((create_pipeline env_all_start_fail "b.mp4" fresh_state).1 = false ∧
     count_timers_armed (create_pipeline env_all_start_fail "b.mp4" fresh_state).2.2 = 0 ∧
     ∀ q, (create_pipeline env_all_start_fail "b.mp4" fresh_state).2.1.pipeline = some q →
       (cleanup_pipeline (create_pipeline env_all_start_fail "b.mp4" fresh_state).2.1).1.pipeline = none ∧
       (cleanup_pipeline (create_pipeline env_all_start_fail "b.mp4" fresh_state).2.1).1.bus = none ∧
       Event.pipelineStopped q ∈
         (cleanup_pipeline (create_pipeline env_all_start_fail "b.mp4" fresh_state).2.1).2) :=
  ⟨by decide,
   create_pipeline_failure_reported_cleaned_next env_all_start_fail "b.mp4"
     fresh_state (by decide)⟩

theorem create_pipeline_fails (env : String → LoadOutcome) (path : String)
    (s : SessionState) (h : env path ≠ LoadOutcome.ok) :
    (create_pipeline env path s).1 = false := by
  rcases henv : env path
  · simp [create_pipeline, henv]
  · simp [create_pipeline, henv]
  · exact absurd henv h

theorem create_pipeline_fields (env : String → LoadOutcome) (path : String)
    (s : SessionState) :
    (create_pipeline env path s).2.1.media_files = s.media_files ∧
    (create_pipeline env path s).2.1.current_index = s.current_index ∧
    (create_pipeline env path s).2.1.destroyed = s.destroyed := by
  rcases hp : s.pipeline with _ | p <;> rcases henv : env path <;>
    by_cases hv : is_video_file path <;>
    simp [create_pipeline, cleanup_pipeline, hp, henv, hv]

theorem count_attempts_cleanup (s : SessionState) :
    count_attempts (cleanup_pipeline s).2 = 0 := by
  rcases hp : s.pipeline with _ | p
  · simp [cleanup_pipeline, hp, count_attempts]
  · rcases ht : s.timeout_id with _ | t <;> rcases hb : s.bus with _ | b <;>
      simp [cleanup_pipeline, hp, ht, hb, cancel_timer_evs, remove_bus_evs,
        count_attempts]

theorem count_attempts_create (env : String → LoadOutcome) (path : String)
    (s : SessionState) :
    count_attempts (create_pipeline env path s).2.2 = 0 := by
  have hcl := count_attempts_cleanup s
  simp only [count_attempts] at hcl
  rcases henv : env path
  · simpa [create_pipeline, henv, count_attempts] using hcl
  · simp [create_pipeline, henv, count_attempts, List.countP_append, hcl]
  · by_cases hv : is_video_file path <;>
      simp [create_pipeline, henv, hv, count_attempts, List.countP_append, hcl]

theorem count_attempts_on_destroy (s : SessionState) :
    count_attempts (on_destroy s).2 = 0 := by
  have hcl := count_attempts_cleanup s
  simp only [count_attempts] at hcl
  rcases ht : s.timeout_id with _ | t <;>
    simp [on_destroy, cancel_timer_evs, ht, count_attempts,
      List.countP_append, hcl]

theorem load_loop_all_fail (env : String → LoadOutcome) :
    ∀ (fuel : Nat) (s : SessionState),
      s.current_index < s.media_files.length →
      (∀ f ∈ s.media_files, env f ≠ LoadOutcome.ok) →
      (load_loop env fuel s).1.destroyed = true ∧
      count_attempts (load_loop env fuel s).2 = fuel := by
  intro fuel
  induction fuel with
  | zero =>
    intro s _ _
    exact ⟨rfl, count_attempts_on_destroy s⟩
  | succ fuel ih =>
    intro s hidx hfail
    have hmem : s.media_files.getD s.current_index "" ∈ s.media_files := by
      rw [List.getD_eq_getElem s.media_files "" hidx]
      exact List.getElem_mem hidx
    have hflag := create_pipeline_fails env _ s (hfail _ hmem)
    have hfields := create_pipeline_fields env (s.media_files.getD s.current_index "") s
    have htr := count_attempts_create env (s.media_files.getD s.current_index "") s
    rcases hr : create_pipeline env (s.media_files.getD s.current_index "") s
      with ⟨b, s1, tr⟩
    rw [hr] at hflag hfields htr
    simp only at hflag hfields htr
    subst hflag
    rw [load_loop_succ_of_fail env fuel s s1 tr hr]
    have hn : 0 < s1.media_files.length := by
      rw [hfields.1]
      exact Nat.lt_of_le_of_lt (Nat.zero_le _) hidx
    have hrec := ih
      { s1 with current_index := advance_index s1.media_files.length s1.current_index }
      (Nat.mod_lt _ hn)
      (by
        intro f hf
        exact hfail f (by rw [← hfields.1]; exact hf))
    refine ⟨hrec.1, ?_⟩
    simp only [count_attempts] at htr hrec ⊢
    simp [List.countP_cons, List.countP_append, htr, hrec.2]

/-- Claim C2: on a catalog in which every item fails to load, the retry
loop of `load_current_media` performs exactly one load attempt per
catalog item (so it terminates, bounded by the catalog length) and then
the session is destroyed. -/
theorem load_current_media_all_fail_terminates (env : String → LoadOutcome)
    (s : SessionState) (hne : s.media_files ≠ [])
    (hidx : s.current_index < s.media_files.length)
    (hfail : ∀ f ∈ s.media_files, env f ≠ LoadOutcome.ok) :
    (load_current_media env s).1.destroyed = true ∧
    count_attempts (load_current_media env s).2 = s.media_files.length := by
  have _ := hne
  exact load_loop_all_fail env s.media_files.length s hidx hfail

/-- Witness for C2: both items of the fresh two-item session fail to
start; the loop makes exactly two attempts and destroys the session. -/
theorem load_current_media_all_fail_terminates_witness :
    (fresh_state.media_files ≠ [] ∧
     fresh_state.current_index < fresh_state.media_files.length ∧
     ∀ f ∈ fresh_state.media_files, env_all_start_fail f ≠ LoadOutcome.ok) ∧
    ((load_current_media env_all_start_fail fresh_state).1.destroyed = true ∧
     count_attempts (load_current_media env_all_start_fail fresh_state).2 =
       fresh_state.media_files.length) :=
  ⟨⟨by decide, by decide, by decide⟩,
   load_current_media_all_fail_terminates env_all_start_fail fresh_state
     (by decide) (by decide) (by decide)⟩

theorem attempt_indices_cleanup (s : SessionState) :
    attempt_indices (cleanup_pipeline s).2 = [] := by
  rcases hp : s.pipeline with _ | p
  · simp [cleanup_pipeline, hp, attempt_indices]
  · rcases ht : s.timeout_id with _ | t <;> rcases hb : s.bus with _ | b <;>
      simp [cleanup_pipeline, hp, ht, hb, cancel_timer_evs, remove_bus_evs,
        attempt_indices]

theorem attempt_indices_create (env : String → LoadOutcome) (path : String)
    (s : SessionState) :
    attempt_indices (create_pipeline env path s).2.2 = [] := by
  have hcl := attempt_indices_cleanup s
  simp only [attempt_indices] at hcl
  rcases henv : env path
  · simpa [create_pipeline, henv, attempt_indices] using hcl
  · simp [create_pipeline, henv, attempt_indices, List.filterMap_append, hcl]
  · by_cases hv : is_video_file path <;>
      simp [create_pipeline, henv, hv, attempt_indices, List.filterMap_append,
        hcl]

theorem attempt_indices_on_destroy (s : SessionState) :
    attempt_indices (on_destroy s).2 = [] := by
  have hcl := attempt_indices_cleanup s
  simp only [attempt_indices] at hcl
  rcases ht : s.timeout_id with _ | t <;>
    simp [on_destroy, cancel_timer_evs, ht, attempt_indices,
      List.filterMap_append, hcl]

theorem advance_index_ne (n a : Nat) (h : 1 < n) : advance_index n a ≠ a := by
  intro heq
  have hlt : (a + 1) % n < n := Nat.mod_lt _ (by omega)
  have ha : a < n := by
    rw [show a = (a + 1) % n from heq.symm]
    exact hlt
  rcases Nat.lt_or_ge (a + 1) n with h1 | h1
  · rw [show advance_index n a = (a + 1) % n from rfl,
      Nat.mod_eq_of_lt h1] at heq
    omega
  · have h2 : a + 1 = n := by omega
    rw [show advance_index n a = (a + 1) % n from rfl, ← h2,
      Nat.mod_self] at heq
    omega

theorem load_loop_attempt_indices (env : String → LoadOutcome) (n : Nat) :
    ∀ (fuel : Nat) (s : SessionState), s.media_files.length = n →
      (attempt_indices (load_loop env fuel s).2 = [] ∧ fuel = 0) ∨
      (∃ rest,
        attempt_indices (load_loop env fuel s).2 = s.current_index :: rest ∧
        List.Chain' (fun a b => b = advance_index n a)
          (s.current_index :: rest)) := by
  intro fuel
  induction fuel with
  | zero =>
    intro s _
    exact Or.inl ⟨attempt_indices_on_destroy s, rfl⟩
  | succ fuel ih =>
    intro s hlen
    have hfields := create_pipeline_fields env (s.media_files.getD s.current_index "") s
    have htr := attempt_indices_create env (s.media_files.getD s.current_index "") s
    rcases hr : create_pipeline env (s.media_files.getD s.current_index "") s
      with ⟨b, s1, tr⟩
    rw [hr] at hfields htr
    simp only at hfields htr
    cases b
    · rw [load_loop_succ_of_fail env fuel s s1 tr hr]
      have hlen1 : s1.media_files.length = n := by rw [hfields.1, hlen]
      rcases ih { s1 with
          current_index := advance_index s1.media_files.length s1.current_index }
          (by simpa using hlen1) with hempty | ⟨rest, hrest, hchain⟩
      · refine Or.inr ⟨[], ?_, List.chain'_singleton _⟩
        simp only [attempt_indices, List.filterMap_cons, List.filterMap_append]
        obtain ⟨hemp, _⟩ := hempty
        simp only [attempt_indices] at htr hemp
        rw [htr, hemp]
        simp
      · refine Or.inr
          ⟨advance_index s1.media_files.length s1.current_index :: rest, ?_, ?_⟩
        · simp only [attempt_indices, List.filterMap_cons, List.filterMap_append]
          simp only [attempt_indices] at htr hrest
          rw [htr, hrest]
          simp
        · refine List.Chain'.cons ?_ hchain
          simp [hlen1, hfields.2.1]
    · rw [load_loop_succ_of_ok env fuel s s1 tr hr]
      refine Or.inr ⟨[], ?_, List.chain'_singleton _⟩
      simp only [attempt_indices, List.filterMap_cons]
      simp only [attempt_indices] at htr
      rw [htr]

/-- Claim C4: `change_media` advances the index before attempting any
load (the first attempted index is the successor of the old one), the
indices attempted by one retry loop follow each other by the advance
step so that with more than one item a just-failed index is never
attempted twice in a row, and the playback-error handler is exactly
`change_media`. -/
theorem change_media_advances_before_load (env : String → LoadOutcome)
    (s : SessionState) (hn : 0 < s.media_files.length) :
    (attempt_indices (change_media env s).2).head? =
      some (advance_index s.media_files.length s.current_index) ∧
    List.Chain'
      (fun a b => b = advance_index s.media_files.length a ∧
        (1 < s.media_files.length → b ≠ a))
      (attempt_indices (change_media env s).2) ∧
    List.Chain'
      (fun a b => b = advance_index s.media_files.length a ∧
        (1 < s.media_files.length → b ≠ a))
      (attempt_indices (load_current_media env s).2) ∧
    on_error env s = change_media env s := by
  have key : ∀ u : SessionState, u.media_files = s.media_files →
      (attempt_indices (load_current_media env u).2).head? =
        some u.current_index ∧
      List.Chain'
        (fun a b => b = advance_index s.media_files.length a ∧
          (1 < s.media_files.length → b ≠ a))
        (attempt_indices (load_current_media env u).2) := by
    intro u hu
    have hfuel : u.media_files.length = Nat.succ (s.media_files.length - 1) := by
      rw [hu]
      omega
    rcases load_loop_attempt_indices env s.media_files.length
        (u.media_files.length) u (by rw [hu]) with hempty | ⟨rest, hrest, hchain⟩
    · rw [hu] at hempty
      omega
    · unfold load_current_media
      rw [hrest]
      refine ⟨rfl, ?_⟩
      refine hchain.imp ?_
      intro a b hab
      exact ⟨hab, fun h1 => hab ▸ advance_index_ne s.media_files.length a h1⟩
  have h1 := key
    { s with current_index := advance_index s.media_files.length s.current_index }
    rfl
  have h2 := key s rfl
  exact ⟨h1.1, h1.2, h2.2, rfl⟩

/-- Witness for C4 on the fresh two-item session where every load
succeeds. -/
theorem change_media_advances_before_load_witness :
    0 < fresh_state.media_files.length ∧
    ((attempt_indices (change_media env_all_ok fresh_state).2).head? =
      some (advance_index fresh_state.media_files.length
        fresh_state.current_index) ∧
    List.Chain'
      (fun a b => b = advance_index fresh_state.media_files.length a ∧
        (1 < fresh_state.media_files.length → b ≠ a))
      (attempt_indices (change_media env_all_ok fresh_state).2) ∧
    List.Chain'
      (fun a b => b = advance_index fresh_state.media_files.length a ∧
        (1 < fresh_state.media_files.length → b ≠ a))
      (attempt_indices (load_current_media env_all_ok fresh_state).2) ∧
    on_error env_all_ok fresh_state = change_media env_all_ok fresh_state) :=
  ⟨by decide, change_media_advances_before_load env_all_ok fresh_state (by decide)⟩

theorem timeout_none_of_pipeline_none (s : SessionState) (hinv : timer_inv s)
    (hp : s.pipeline = none) : s.timeout_id = none := by
  rcases ht : s.timeout_id with _ | t
  · rfl
  · exact absurd (hinv (by simp [ht])) (by simp [hp])

/-- Claim C5: on any state satisfying the timer-pipeline invariant, a
successful `create_pipeline` of an image arms exactly one advance timer
whose duration is the configured image interval, a successful load of a
video arms none, and no timer is ever armed while another is still
pending (the teardown at the head of the call cancels any pre-existing
timer first). -/
theorem image_load_arms_single_timer (env : String → LoadOutcome)
    (path : String) (s : SessionState) (hinv : timer_inv s) :
    ((create_pipeline env path s).1 = true → is_video_file path = false →
      count_timers_armed (create_pipeline env path s).2.2 = 1 ∧
      armed_durations (create_pipeline env path s).2.2 = [s.image_interval] ∧
      ∃ t, (create_pipeline env path s).2.1.timeout_id = some t ∧
        t.duration = s.image_interval) ∧
    ((create_pipeline env path s).1 = true → is_video_file path = true →
      count_timers_armed (create_pipeline env path s).2.2 = 0 ∧
      (create_pipeline env path s).2.1.timeout_id = none) ∧
    armed_while_pending (Option.map Timer.id s.timeout_id)
      (create_pipeline env path s).2.2 = false := by
  rcases ht : s.timeout_id with _ | t
  · rcases hp : s.pipeline with _ | p <;> rcases hb : s.bus with _ | b <;>
      rcases henv : env path <;> by_cases hv : is_video_file path <;>
      simp [create_pipeline, cleanup_pipeline, henv, hv, hp, ht, hb,
        cancel_timer_evs, remove_bus_evs, count_timers_armed, armed_durations,
        armed_while_pending, List.countP_append, List.filterMap_append]
  · have hps := hinv (by simp [ht])
    rcases hp : s.pipeline with _ | p
    · rw [hp] at hps
      simp at hps
    · rcases hb : s.bus with _ | b <;> rcases henv : env path <;>
        by_cases hv : is_video_file path <;>
        simp [create_pipeline, cleanup_pipeline, henv, hv, hp, ht, hb,
          cancel_timer_evs, remove_bus_evs, count_timers_armed,
          armed_durations, armed_while_pending, List.countP_append,
          List.filterMap_append]

/-- Witness for C5: a successful image load on the mid-show sample state
(whose timer 9 is pending and pipeline 7 live). -/
theorem image_load_arms_single_timer_witness :
    timer_inv showing_state ∧
    (((create_pipeline env_all_ok "a.jpg" showing_state).1 = true →
      is_video_file "a.jpg" = false →
      count_timers_armed (create_pipeline env_all_ok "a.jpg" showing_state).2.2 = 1 ∧
      armed_durations (create_pipeline env_all_ok "a.jpg" showing_state).2.2 =
        [showing_state.image_interval] ∧
      ∃ t, (create_pipeline env_all_ok "a.jpg" showing_state).2.1.timeout_id = some t ∧
        t.duration = showing_state.image_interval) ∧
    ((create_pipeline env_all_ok "a.jpg" showing_state).1 = true →
      is_video_file "a.jpg" = true →
      count_timers_armed (create_pipeline env_all_ok "a.jpg" showing_state).2.2 = 0 ∧
      (create_pipeline env_all_ok "a.jpg" showing_state).2.1.timeout_id = none) ∧
    armed_while_pending (Option.map Timer.id showing_state.timeout_id)
      (create_pipeline env_all_ok "a.jpg" showing_state).2.2 = false) :=
  ⟨by decide,
   image_load_arms_single_timer env_all_ok "a.jpg" showing_state (by decide)⟩

end Slideshow
